import Mathlib

/-!
# A verification of the Confluence-to-AsciiDoc exporter

Shallow embedding of `wiki_to_adoc.py`.  The script fetches wiki pages over
HTTP, converts each body from HTML to AsciiDoc with an external converter,
writes one file per page, and optionally recurses into child pages.

The remote API and the converter are modelled as oracles (`Remote`); the
filesystem is a pair of association lists (regular files and directories);
the traversal itself (`process_page`, lines 43-93 of the source) is embedded
as a fuel-indexed function so that cyclic remote parent/child structures,
against which the source does not defend, cannot make the embedding
non-terminating.  Exit-with-status-1 (the script's `exit(1)`, reached from
`create_folder` and from the bare `except:` of `process_page`) is the
`.error 1` branch of an `Except Nat` result.  Every action taken by a run
(folder creation, page fetch, child listing, file write) is also recorded in
an event trace so that ordering claims can be stated.
-/

/-- A page-fetch response: HTTP status plus the JSON fields the script reads
(`data["title"]` and `data["body"]["storage"]["value"]`). -/
structure PageResp where
  status : Nat
  title : String
  body : String
deriving DecidableEq

/-- One entry of a child listing (`{id, title, type}` in the JSON). -/
structure ChildEntry where
  id : Nat
  title : String
  type : String
deriving DecidableEq

/-- A child-listing response: HTTP status plus the `results` list. -/
structure ChildResp where
  status : Nat
  results : List ChildEntry
deriving DecidableEq

/-- The remote wiki and the pandoc converter, as oracles.  `page pid` is the
response to `GET {base}/{pid}?expand=body.storage`, `children pid` the
response to `GET {base}/{pid}/child/page`, and `convert` is the composite
`pandoc.read`/`pandoc.write` call of lines 56-57: `none` models a conversion
exception. -/
structure Remote where
  page : Nat → PageResp
  children : Nat → ChildResp
  convert : String → Option String

/-- The `Config` class of lines 17-24 of the source, field for field. -/
structure Config where
  confluence_user_name : String
  confluence_password : String
  base_url : String
  output_folder : String
  recursive : Bool
  title_as_name : Bool
deriving DecidableEq

/-- The filesystem: regular files as an association list from path to
content, and the set of existing directories. -/
structure FS where
  files : List (String × String)
  dirs : List String
deriving DecidableEq

/-- `os.path.exists`: the path is a directory or a regular file. -/
def FS.exists_path (fs : FS) (p : String) : Prop :=
  p ∈ fs.dirs ∨ p ∈ fs.files.map Prod.fst

/-- `os.path.isdir`. -/
def FS.is_dir (fs : FS) (p : String) : Prop :=
  p ∈ fs.dirs

instance (fs : FS) (p : String) : Decidable (fs.exists_path p) :=
  inferInstanceAs (Decidable (_ ∨ _))

instance (fs : FS) (p : String) : Decidable (fs.is_dir p) :=
  inferInstanceAs (Decidable (_ ∈ _))

/-- Association-list lookup for the files component. -/
def lookupFile : List (String × String) → String → Option String
  | [], _ => none
  | (k, v) :: rest, p => if p = k then some v else lookupFile rest p

/-- `open(path, "w")` followed by the two writes and `close` (lines 62-65):
the file is created or truncated, never appended to. -/
def setFile (fs : FS) (path content : String) : FS :=
  { fs with files := (path, content) :: fs.files.filter (fun kv => kv.1 ≠ path) }

/-- Everything of a path before its last slash (`os.path.dirname`). -/
def dirnameOf (p : String) : String :=
  String.mk (((p.toList.reverse.dropWhile (fun c => c ≠ '/')).drop 1).reverse)

/-- `open(path, "w")` raises `FileNotFoundError` when the containing
directory does not exist; otherwise it creates or truncates the file. -/
def writeFile (fs : FS) (path content : String) : Option FS :=
  if fs.is_dir (dirnameOf path) then some (setFile fs path content) else none

/-- `create_folder` (lines 31-40): `none` is the `exit(1)` of line 35. -/
def create_folder (fs : FS) (folder : String) : Option FS :=
  if fs.exists_path folder ∧ ¬ fs.is_dir folder then
    none
  else if ¬ fs.exists_path folder then
    some { fs with dirs := folder :: fs.dirs }
  else
    some fs

/-! ## `os.path.normpath` (POSIX), as applied to titles on lines 60 and 83 -/

/-- `str.split('/')` on the character list. -/
def splitSlash : List Char → List (List Char)
  | [] => [[]]
  | c :: rest =>
    let r := splitSlash rest
    if c = '/' then [] :: r
    else
      match r with
      | [] => [[c]]
      | h :: t => (c :: h) :: t

/-- The number of leading slashes CPython's `posixpath.normpath` preserves:
two for an initial `//` not followed by a third slash, else one or zero. -/
def initSlashes : List Char → Nat
  | '/' :: '/' :: '/' :: _ => 1
  | '/' :: '/' :: _ => 2
  | '/' :: _ => 1
  | _ => 0

/-- One step of `posixpath.normpath`'s component loop. -/
def normStep (slashes : Nat) (acc : List String) (comp : String) : List String :=
  if comp = "" ∨ comp = "." then acc
  else if comp ≠ ".." ∨ (slashes = 0 ∧ acc = []) ∨ acc.getLast? = some ".." then
    acc ++ [comp]
  else
    acc.dropLast

/-- `os.path.normpath` for POSIX paths, following CPython's
`posixpath.normpath` line by line. -/
def normpath (path : String) : String :=
  if path = "" then "."
  else
    let slashes := initSlashes path.toList
    let comps := (splitSlash path.toList).map String.mk
    let newComps := comps.foldl (normStep slashes) []
    let out := String.mk (List.replicate slashes '/') ++
      String.intercalate "/" newComps
    if out = "" then "." else out

/-! ## URL and filename construction -/

/-- `str.strip('/')`. -/
def stripSlash (s : String) : String :=
  String.mk (((s.toList.dropWhile (fun c => c = '/')).reverse.dropWhile
    (fun c => c = '/')).reverse)

/-- `slash_join` (lines 28-29). -/
def slash_join (parts : List String) : String :=
  String.intercalate "/" (parts.map stripSlash)

/-- The page-fetch URL of line 46. -/
def pageUrl (base : String) (page_id : Nat) : String :=
  base ++ "/" ++ toString page_id ++ "?expand=body.storage"

/-- The child-listing URL of line 70. -/
def childUrl (base : String) (page_id : Nat) : String :=
  base ++ "/" ++ toString page_id ++ "/child/page"

/-- The filename basis of lines 60 and 83:
`os.path.normpath(title) if service_config.title_as_name is True else page_id`. -/
def basisOf (title_as_name : Bool) (title : String) (page_id : Nat) : String :=
  if title_as_name then normpath title else toString page_id

/-- The output path of line 59: `"{}/{}.adoc".format(folder, basis)`. -/
def adocFilename (folder basis : String) : String :=
  folder ++ "/" ++ basis ++ ".adoc"

/-- The file content written by lines 63-64: `"= {}\n\n".format(title)`
followed by the converter's output. -/
def adocContent (title adoc : String) : String :=
  "= " ++ title ++ "\n\n" ++ adoc

/-! ## The exporter -/

/-- One observable action of a run, in execution order. -/
inductive Event where
  | ensure (folder : String)
  | fetch (url : String)
  | listChildren (url : String)
  | write (path : String) (content : String)
deriving DecidableEq

/-- Run state: the filesystem plus the trace of actions so far. -/
structure St where
  fs : FS
  trace : List Event
deriving DecidableEq

/-- The `for child_page in child_page_ids` loop of lines 78-89.  `recurse`
is the recursive `process_page` call of line 89; an `.error` escaping it is
the child's `SystemExit` landing in the parent's bare `except:`, which logs
and calls `exit(1)` again (lines 90-93), so the loop stops and the parent
itself reports exit status 1. -/
def children_loop (recurse : Config → Nat → St → Except Nat St)
    (cfg : Config) (title : String) (page_id : Nat) :
    List ChildEntry → St → Except Nat St
  | [], st => .ok st
  | child :: rest, st =>
    if child.type = "page" then
      let folder := cfg.output_folder ++ "/" ++
        basisOf cfg.title_as_name title page_id
      let child_config : Config := { cfg with output_folder := folder }
      match recurse child_config child.id st with
      | .error _ => .error 1
      | .ok st' => children_loop recurse cfg title page_id rest st'
    else
      children_loop recurse cfg title page_id rest st

/-- The body of `process_page` (lines 43-93) for one invocation, with the
recursive call abstracted as `recurse`.  `.error 1` covers the `exit(1)` of
`create_folder` and the one reached through the bare `except:` (conversion
failure, write failure, or a child's propagated `SystemExit`). -/
def process_page_body (recurse : Config → Nat → St → Except Nat St)
    (rm : Remote) (base : String) (cfg : Config) (page_id : Nat) (st : St) :
    Except Nat St :=
  match create_folder st.fs cfg.output_folder with
  | none => .error 1
  | some fs1 =>
    let resp := rm.page page_id
    let t2 := st.trace ++
      [Event.ensure cfg.output_folder, Event.fetch (pageUrl base page_id)]
    if resp.status ≠ 200 then
      .ok ⟨fs1, t2⟩
    else
      match rm.convert resp.body with
      | none => .error 1
      | some adoc =>
        let fn := adocFilename cfg.output_folder
          (basisOf cfg.title_as_name resp.title page_id)
        let content := adocContent resp.title adoc
        match writeFile fs1 fn content with
        | none => .error 1
        | some fs2 =>
          let t3 := t2 ++ [Event.write fn content]
          if cfg.recursive then
            let cresp := rm.children page_id
            let t4 := t3 ++ [Event.listChildren (childUrl base page_id)]
            if cresp.status ≠ 200 then
              .ok ⟨fs2, t4⟩
            else
              children_loop recurse cfg resp.title page_id cresp.results ⟨fs2, t4⟩
          else
            .ok ⟨fs2, t3⟩

/-- `process_page`, fuel-indexed: `fuel` bounds the recursion depth (the
source trusts the remote parent/child relation to be acyclic, so on the
intended inputs some finite fuel reproduces it exactly). -/
def process_page (rm : Remote) (base : String) :
    Nat → Config → Nat → St → Except Nat St
  | 0, _, _, st => .ok st
  | fuel + 1, cfg, page_id, st =>
    process_page_body (process_page rm base fuel) rm base cfg page_id st

/-- The `for page in args.pages` loop of lines 134-141.  The loop rebuilds an
identical `Config` each iteration; an uncaught `SystemExit` from
`process_page` ends the process. -/
def run_pages (rm : Remote) (base : String) (fuel : Nat) (cfg : Config) :
    List Nat → St → Except Nat St
  | [], st => .ok st
  | p :: rest, st =>
    match process_page rm base fuel cfg p st with
    | .error c => .error c
    | .ok st' => run_pages rm base fuel cfg rest st'

/-- The two credential environment variables (`os.environ.get` yields
`none` when unset). -/
structure EnvVars where
  username : Option String
  password : Option String

/-- The parsed command line (lines 96-105). -/
structure Args where
  output : String
  wiki : String
  recursive : Bool
  titles : Bool
  pages : List Nat

/-- The top level of the script (lines 120-141): read the credentials, exit 1
when either is unset or empty (Python's `not` on an optional string), build
the base URL, then fetch each requested page. -/
def main_run (fuel : Nat) (rm : Remote) (env : EnvVars) (args : Args)
    (fs : FS) : Except Nat St :=
  if env.username.getD "" = "" ∨ env.password.getD "" = "" then
    .error 1
  else
    let base := slash_join [args.wiki, "rest", "api", "content"]
    let cfg : Config := ⟨env.username.getD "", env.password.getD "", base,
      args.output, args.recursive, args.titles⟩
    run_pages rm base fuel cfg args.pages ⟨fs, []⟩

/-! ## Analysis layer: replaying a trace against a filesystem -/

/-- The filesystem effect of one recorded event: folder creation is
idempotent, a write truncates, fetches and listings touch nothing. -/
def applyEvent (fs : FS) : Event → FS
  | .ensure f => if f ∈ fs.dirs then fs else { fs with dirs := f :: fs.dirs }
  | .write p c => setFile fs p c
  | .fetch _ => fs
  | .listChildren _ => fs

/-- Replay a trace left to right. -/
def applyEvents (fs : FS) (es : List Event) : FS :=
  es.foldl applyEvent fs

/-- The content of the last write to `p` in a trace, if any. -/
def lastWrite : List Event → String → Option String
  | [], _ => none
  | Event.write q c :: rest, p =>
    match lastWrite rest p with
    | some c' => some c'
    | none => if p = q then some c else none
  | _ :: rest, p => lastWrite rest p

/-- `p` lies inside one of the folders of `ensured`. -/
def writeCovered (ensured : List String) (p : String) : Prop :=
  ∃ f ∈ ensured, ∃ r, p = f ++ "/" ++ r

/-- Every write in the trace goes into a folder whose creation was ensured
earlier in the trace (or into one of the folders assumed in `en`). -/
def chk : List String → List Event → Prop
  | _, [] => True
  | en, Event.ensure f :: rest => chk (f :: en) rest
  | en, Event.write p _ :: rest => writeCovered en p ∧ chk en rest
  | en, Event.fetch _ :: rest => chk en rest
  | en, Event.listChildren _ :: rest => chk en rest

/-- The invariant a successful exporter run satisfies: the final trace
extends the initial one by a delta `es`; the final filesystem is the replay
of `es`; directories only accumulate; every write in `es` is preceded in
`es` by the ensuring of its folder; and the run can be replayed verbatim
from any filesystem whose directories include those of the first run's
result, without creating any directory. -/
def GoodRunF (f : St → Except Nat St) : Prop :=
  ∀ fs t fs' t', f ⟨fs, t⟩ = .ok ⟨fs', t'⟩ →
    ∃ es, t' = t ++ es ∧ fs' = applyEvents fs es ∧ fs.dirs ⊆ fs'.dirs ∧
      (∀ en, chk en es) ∧
      ∀ g u, fs'.dirs ⊆ g.dirs →
        f ⟨g, u⟩ = .ok ⟨applyEvents g es, u ++ es⟩ ∧
        (applyEvents g es).dirs = g.dirs

/-! ## Concrete oracles used by witnesses and counterexamples -/

/-- The empty filesystem. -/
def fs0 : FS := ⟨[], []⟩

/-- Total projections of a run result, for stating closed facts. -/
def stFsOf : Except Nat St → FS
  | .ok st => st.fs
  | .error _ => fs0

def stTraceOf : Except Nat St → List Event
  | .ok st => st.trace
  | .error _ => []

/-- A small healthy wiki: page 1 has children page 2, attachment 3, page 4;
pages 2 and 4 are leaves; every other id answers 404. -/
def rmA : Remote where
  page := fun pid =>
    if pid = 1 then ⟨200, "Root", "b1"⟩
    else if pid = 2 then ⟨200, "Two", "b2"⟩
    else if pid = 4 then ⟨200, "Four", "b4"⟩
    else ⟨404, "", ""⟩
  children := fun pid =>
    if pid = 1 then
      ⟨200, [⟨2, "C1", "page"⟩, ⟨3, "C2", "attachment"⟩, ⟨4, "C3", "page"⟩]⟩
    else ⟨200, []⟩
  convert := fun s => some ("A:" ++ s)

/-- Recursive configuration over `rmA`, ids as filenames. -/
def cfgR : Config := ⟨"u", "p", "w", "out", true, false⟩

/-- Non-recursive configuration, ids as filenames. -/
def cfgN : Config := ⟨"u", "p", "w", "out", false, false⟩

/-- A wiki whose page 7 answers 201 (a 2xx status that is not 200). -/
def rm201 : Remote where
  page := fun _ => ⟨201, "T", "b"⟩
  children := fun _ => ⟨200, []⟩
  convert := fun s => some ("A:" ++ s)

/-- A wiki whose page 123 carries the title `Setup//Guide`:
`os.path.normpath` rewrites it to `Setup/Guide`. -/
def rmC3 : Remote where
  page := fun _ => ⟨200, "Setup//Guide", "b"⟩
  children := fun _ => ⟨200, []⟩
  convert := fun _ => some "C"

/-- Titles-mode, non-recursive configuration for the `rmC3` scenario. -/
def cfgC3 : Config := ⟨"u", "p", "w", "out", false, true⟩

/-- A wiki whose page 9 carries the title `a/b`, which `os.path.normpath`
keeps verbatim, separator included. -/
def rmC6 : Remote where
  page := fun _ => ⟨200, "a/b", "body"⟩
  children := fun _ => ⟨200, []⟩
  convert := fun _ => some "X"

/-- A wiki whose page 2 (a child of page 1) has a body the converter
rejects: the conversion raises inside the recursive call. -/
def rmB : Remote where
  page := fun pid =>
    if pid = 1 then ⟨200, "Root", "ok"⟩
    else ⟨200, "Child", "bad"⟩
  children := fun pid =>
    if pid = 1 then ⟨200, [⟨2, "C", "page"⟩]⟩ else ⟨200, []⟩
  convert := fun s => if s = "bad" then none else some ("A:" ++ s)

/-- A wiki whose page 123 carries the plain title `Setup Guide`. -/
def rmT : Remote where
  page := fun _ => ⟨200, "Setup Guide", "b"⟩
  children := fun _ => ⟨200, []⟩
  convert := fun _ => some "C"

/-- A command line like `-o out -w http://w/ 1`. -/
def argsDemo : Args := ⟨"out", "http://w/", false, false, [1]⟩

/-! ### Sanity checks on the embedding (kept as `example`s) -/

example : normpath "Setup Guide" = "Setup Guide" := by decide
example : normpath "Setup//Guide" = "Setup/Guide" := by decide
example : normpath "a/b" = "a/b" := by decide
example : normpath "a/./b" = "a/b" := by decide
example : normpath "" = "." := by decide
example : slash_join ["http://w/", "rest", "api", "content"] =
    "http://w/rest/api/content" := by decide
example : dirnameOf "out/a/b.adoc" = "out/a" := by decide
example : dirnameOf "out/123.adoc" = "out" := by decide
example : pageUrl "w" 123 = "w/123?expand=body.storage" := by decide

/-! ## Unfolding equations -/

theorem process_page_zero (rm : Remote) (base : String) (cfg : Config)
    (pid : Nat) (st : St) : process_page rm base 0 cfg pid st = .ok st := rfl

theorem process_page_succ (rm : Remote) (base : String) (fuel : Nat)
    (cfg : Config) (pid : Nat) (st : St) :
    process_page rm base (fuel + 1) cfg pid st =
      process_page_body (process_page rm base fuel) rm base cfg pid st := rfl

theorem children_loop_nil (recurse : Config → Nat → St → Except Nat St)
    (cfg : Config) (title : String) (pid : Nat) (st : St) :
    children_loop recurse cfg title pid [] st = .ok st := rfl

theorem children_loop_cons_page (recurse : Config → Nat → St → Except Nat St)
    (cfg : Config) (title : String) (pid : Nat) (child : ChildEntry)
    (rest : List ChildEntry) (st : St) (h : child.type = "page") :
    children_loop recurse cfg title pid (child :: rest) st =
      match recurse
          { cfg with output_folder :=
              cfg.output_folder ++ "/" ++ basisOf cfg.title_as_name title pid }
          child.id st with
      | .error _ => .error 1
      | .ok st' => children_loop recurse cfg title pid rest st' := by
  simp only [children_loop, if_pos h]

theorem children_loop_cons_skip (recurse : Config → Nat → St → Except Nat St)
    (cfg : Config) (title : String) (pid : Nat) (child : ChildEntry)
    (rest : List ChildEntry) (st : St) (h : ¬ child.type = "page") :
    children_loop recurse cfg title pid (child :: rest) st =
      children_loop recurse cfg title pid rest st := by
  simp only [children_loop, if_neg h]

theorem body_cf_none (recurse : Config → Nat → St → Except Nat St)
    (rm : Remote) (base : String) (cfg : Config) (pid : Nat) (st : St)
    (hcf : create_folder st.fs cfg.output_folder = none) :
    process_page_body recurse rm base cfg pid st = .error 1 := by
  simp only [process_page_body, hcf]

theorem body_skip (recurse : Config → Nat → St → Except Nat St)
    (rm : Remote) (base : String) (cfg : Config) (pid : Nat) (st : St)
    (fs1 : FS) (hcf : create_folder st.fs cfg.output_folder = some fs1)
    (hs : (rm.page pid).status ≠ 200) :
    process_page_body recurse rm base cfg pid st =
      .ok ⟨fs1, st.trace ++
        [Event.ensure cfg.output_folder, Event.fetch (pageUrl base pid)]⟩ := by
  simp only [process_page_body, hcf]
  rw [if_pos hs]

theorem body_conv_err (recurse : Config → Nat → St → Except Nat St)
    (rm : Remote) (base : String) (cfg : Config) (pid : Nat) (st : St)
    (fs1 : FS) (hcf : create_folder st.fs cfg.output_folder = some fs1)
    (hs : (rm.page pid).status = 200)
    (hc : rm.convert (rm.page pid).body = none) :
    process_page_body recurse rm base cfg pid st = .error 1 := by
  simp only [process_page_body, hcf]
  rw [if_neg (not_not_intro hs), hc]

theorem body_write_err (recurse : Config → Nat → St → Except Nat St)
    (rm : Remote) (base : String) (cfg : Config) (pid : Nat) (st : St)
    (fs1 : FS) (adoc : String)
    (hcf : create_folder st.fs cfg.output_folder = some fs1)
    (hs : (rm.page pid).status = 200)
    (hc : rm.convert (rm.page pid).body = some adoc)
    (hw : writeFile fs1
      (adocFilename cfg.output_folder
        (basisOf cfg.title_as_name (rm.page pid).title pid))
      (adocContent (rm.page pid).title adoc) = none) :
    process_page_body recurse rm base cfg pid st = .error 1 := by
  simp only [process_page_body, hcf]
  rw [if_neg (not_not_intro hs), hc]
  simp only [hw]

theorem body_nonrec (recurse : Config → Nat → St → Except Nat St)
    (rm : Remote) (base : String) (cfg : Config) (pid : Nat) (st : St)
    (fs1 fs2 : FS) (adoc : String)
    (hcf : create_folder st.fs cfg.output_folder = some fs1)
    (hs : (rm.page pid).status = 200)
    (hc : rm.convert (rm.page pid).body = some adoc)
    (hw : writeFile fs1
      (adocFilename cfg.output_folder
        (basisOf cfg.title_as_name (rm.page pid).title pid))
      (adocContent (rm.page pid).title adoc) = some fs2)
    (hr : cfg.recursive = false) :
    process_page_body recurse rm base cfg pid st =
      .ok ⟨fs2, st.trace ++
        [Event.ensure cfg.output_folder, Event.fetch (pageUrl base pid),
         Event.write
           (adocFilename cfg.output_folder
             (basisOf cfg.title_as_name (rm.page pid).title pid))
           (adocContent (rm.page pid).title adoc)]⟩ := by
  simp only [process_page_body, hcf]
  rw [if_neg (not_not_intro hs), hc]
  simp only [hw, hr, if_false, Bool.false_eq_true, List.append_assoc,
    List.cons_append, List.nil_append]

theorem body_list_err (recurse : Config → Nat → St → Except Nat St)
    (rm : Remote) (base : String) (cfg : Config) (pid : Nat) (st : St)
    (fs1 fs2 : FS) (adoc : String)
    (hcf : create_folder st.fs cfg.output_folder = some fs1)
    (hs : (rm.page pid).status = 200)
    (hc : rm.convert (rm.page pid).body = some adoc)
    (hw : writeFile fs1
      (adocFilename cfg.output_folder
        (basisOf cfg.title_as_name (rm.page pid).title pid))
      (adocContent (rm.page pid).title adoc) = some fs2)
    (hr : cfg.recursive = true)
    (hcs : (rm.children pid).status ≠ 200) :
    process_page_body recurse rm base cfg pid st =
      .ok ⟨fs2, st.trace ++
        [Event.ensure cfg.output_folder, Event.fetch (pageUrl base pid),
         Event.write
           (adocFilename cfg.output_folder
             (basisOf cfg.title_as_name (rm.page pid).title pid))
           (adocContent (rm.page pid).title adoc),
         Event.listChildren (childUrl base pid)]⟩ := by
  simp only [process_page_body, hcf]
  rw [if_neg (not_not_intro hs), hc]
  simp only [hw, hr, if_true]
  rw [if_pos hcs]
  simp only [List.append_assoc, List.cons_append, List.nil_append]

theorem body_rec (recurse : Config → Nat → St → Except Nat St)
    (rm : Remote) (base : String) (cfg : Config) (pid : Nat) (st : St)
    (fs1 fs2 : FS) (adoc : String)
    (hcf : create_folder st.fs cfg.output_folder = some fs1)
    (hs : (rm.page pid).status = 200)
    (hc : rm.convert (rm.page pid).body = some adoc)
    (hw : writeFile fs1
      (adocFilename cfg.output_folder
        (basisOf cfg.title_as_name (rm.page pid).title pid))
      (adocContent (rm.page pid).title adoc) = some fs2)
    (hr : cfg.recursive = true)
    (hcs : (rm.children pid).status = 200) :
    process_page_body recurse rm base cfg pid st =
      children_loop recurse cfg (rm.page pid).title pid (rm.children pid).results
        ⟨fs2, st.trace ++
          [Event.ensure cfg.output_folder, Event.fetch (pageUrl base pid),
           Event.write
             (adocFilename cfg.output_folder
               (basisOf cfg.title_as_name (rm.page pid).title pid))
             (adocContent (rm.page pid).title adoc),
           Event.listChildren (childUrl base pid)]⟩ := by
  simp only [process_page_body, hcf]
  rw [if_neg (not_not_intro hs), hc]
  simp only [hw, hr, if_true]
  rw [if_neg (not_not_intro hcs)]
  simp only [List.append_assoc, List.cons_append, List.nil_append]

/-! ## Filesystem lemmas -/

theorem setFile_dirs (fs : FS) (p c : String) :
    (setFile fs p c).dirs = fs.dirs := rfl

theorem writeFile_some (fs fs' : FS) (p c : String)
    (h : writeFile fs p c = some fs') :
    fs' = setFile fs p c ∧ fs.is_dir (dirnameOf p) := by
  unfold writeFile at h
  by_cases hd : fs.is_dir (dirnameOf p)
  · rw [if_pos hd] at h
    exact ⟨(Option.some_injective _ h).symm, hd⟩
  · rw [if_neg hd] at h
    exact absurd h (by simp)

theorem writeFile_of_dir (fs : FS) (p c : String)
    (h : fs.is_dir (dirnameOf p)) :
    writeFile fs p c = some (setFile fs p c) := by
  unfold writeFile
  rw [if_pos h]

theorem create_folder_some (fs fs' : FS) (f : String)
    (h : create_folder fs f = some fs') :
    fs' = applyEvent fs (Event.ensure f) ∧ f ∈ fs'.dirs ∧
      fs.dirs ⊆ fs'.dirs ∧ fs'.files = fs.files := by
  unfold create_folder at h
  by_cases he : fs.exists_path f
  · by_cases hd : fs.is_dir f
    · rw [if_neg (by tauto), if_neg (by tauto)] at h
      cases h
      refine ⟨?_, hd, fun x hx => hx, rfl⟩
      simp [applyEvent, FS.is_dir] at hd ⊢
      rw [if_pos hd]
    · rw [if_pos ⟨he, hd⟩] at h
      exact absurd h (by simp)
  · rw [if_neg (by tauto), if_pos he] at h
    cases h
    have hnd : f ∉ fs.dirs := fun hx => he (Or.inl hx)
    refine ⟨?_, List.mem_cons_self _ _, fun x hx => List.mem_cons_of_mem _ hx, rfl⟩
    simp only [applyEvent]
    rw [if_neg hnd]

theorem create_folder_mem (fs : FS) (f : String) (h : f ∈ fs.dirs) :
    create_folder fs f = some fs := by
  unfold create_folder
  rw [if_neg (by exact fun hx => hx.2 h), if_neg (by exact fun hx => hx (Or.inl h))]

theorem applyEvent_ensure_mem (fs : FS) (f : String) (h : f ∈ fs.dirs) :
    applyEvent fs (Event.ensure f) = fs := by
  simp only [applyEvent]
  rw [if_pos h]

/-! ## Lookup lemmas -/

theorem lookupFile_filter_ne (l : List (String × String)) (p q : String)
    (h : q ≠ p) :
    lookupFile (l.filter (fun kv => kv.1 ≠ p)) q = lookupFile l q := by
  induction l with
  | nil => rfl
  | cons kv rest ih =>
    by_cases hk : kv.1 = p
    · rw [List.filter_cons_of_neg (by simp [hk])]
      rw [ih]
      cases kv with
      | mk k v =>
        simp only at hk
        subst hk
        simp only [lookupFile]
        rw [if_neg h]
  
    · rw [List.filter_cons_of_pos (by simp [hk])]
      cases kv with
      | mk k v =>
        simp only [lookupFile]
        by_cases hq : q = k
        · rw [if_pos hq, if_pos hq]
        · rw [if_neg hq, if_neg hq, ih]

theorem lookupFile_setFile (fs : FS) (p c q : String) :
    lookupFile (setFile fs p c).files q =
      if q = p then some c else lookupFile fs.files q := by
  simp only [setFile, lookupFile]
  by_cases hq : q = p
  · rw [if_pos hq, if_pos hq]
  · rw [if_neg hq, if_neg hq, lookupFile_filter_ne _ _ _ hq]

theorem applyEvent_files_of_not_write (fs : FS) (e : Event)
    (h : ∀ p c, e ≠ Event.write p c) : (applyEvent fs e).files = fs.files := by
  cases e with
  | ensure f =>
    simp only [applyEvent]
    by_cases hm : f ∈ fs.dirs
    · rw [if_pos hm]
    · rw [if_neg hm]
  | fetch _ => rfl
  | listChildren _ => rfl
  | write p c => exact absurd rfl (h p c)

theorem lookupFile_applyEvents (es : List Event) (fs : FS) (p : String) :
    lookupFile (applyEvents fs es).files p =
      match lastWrite es p with
      | some c => some c
      | none => lookupFile fs.files p := by
  induction es generalizing fs with
  | nil => rfl
  | cons e rest ih =>
    have step : applyEvents fs (e :: rest) = applyEvents (applyEvent fs e) rest := rfl
    rw [step, ih]
    cases e with
    | ensure f =>
      have : (applyEvent fs (Event.ensure f)).files = fs.files :=
        applyEvent_files_of_not_write _ _ (by intro p c h; cases h)
      rw [show lastWrite (Event.ensure f :: rest) p = lastWrite rest p from rfl, this]
    | fetch u =>
      rw [show lastWrite (Event.fetch u :: rest) p = lastWrite rest p from rfl]
      rfl
    | listChildren u =>
      rw [show lastWrite (Event.listChildren u :: rest) p = lastWrite rest p from rfl]
      rfl
    | write q c =>
      have hw : applyEvent fs (Event.write q c) = setFile fs q c := rfl
      rw [hw]
      have hl : lastWrite (Event.write q c :: rest) p =
          match lastWrite rest p with
          | some c' => some c'
          | none => if p = q then some c else none := rfl
      rw [hl]
      cases hres : lastWrite rest p with
      | some c' => rfl
      | none =>
        simp only
        rw [lookupFile_setFile]
        by_cases hpq : p = q
        · rw [if_pos hpq, if_pos hpq]
        · rw [if_neg hpq, if_neg hpq]

/-! ## Coverage (`chk`) lemmas -/

theorem chk_append (es1 es2 : List Event) (en : List String)
    (h1 : chk en es1) (h2 : ∀ en', chk en' es2) : chk en (es1 ++ es2) := by
  induction es1 generalizing en with
  | nil => exact h2 en
  | cons e rest ih =>
    cases e with
    | ensure f => exact ih (f :: en) h1
    | fetch u => exact ih en h1
    | listChildren u => exact ih en h1
    | write p c => exact ⟨h1.1, ih en h1.2⟩

theorem applyEvents_append (fs : FS) (l1 l2 : List Event) :
    applyEvents fs (l1 ++ l2) = applyEvents (applyEvents fs l1) l2 :=
  List.foldl_append _ _ _ _

theorem children_loop_cons_page_ok (recurse : Config → Nat → St → Except Nat St)
    (cfg : Config) (title : String) (pid : Nat) (child : ChildEntry)
    (rest : List ChildEntry) (st st1 : St) (hty : child.type = "page")
    (h1 : recurse
        { cfg with output_folder :=
            cfg.output_folder ++ "/" ++ basisOf cfg.title_as_name title pid }
        child.id st = .ok st1) :
    children_loop recurse cfg title pid (child :: rest) st =
      children_loop recurse cfg title pid rest st1 := by
  rw [children_loop_cons_page _ _ _ _ _ _ _ hty, h1]

theorem children_loop_cons_page_err (recurse : Config → Nat → St → Except Nat St)
    (cfg : Config) (title : String) (pid : Nat) (child : ChildEntry)
    (rest : List ChildEntry) (st : St) (c : Nat) (hty : child.type = "page")
    (h1 : recurse
        { cfg with output_folder :=
            cfg.output_folder ++ "/" ++ basisOf cfg.title_as_name title pid }
        child.id st = .error c) :
    children_loop recurse cfg title pid (child :: rest) st = .error 1 := by
  rw [children_loop_cons_page _ _ _ _ _ _ _ hty, h1]


/-- The loop of lines 78-89 satisfies the run invariant whenever every
recursive call does. -/
theorem children_loop_good (recurse : Config → Nat → St → Except Nat St)
    (hrec : ∀ c i, GoodRunF (recurse c i))
    (cfg : Config) (title : String) (pid : Nat) :
    ∀ entries, GoodRunF (children_loop recurse cfg title pid entries) := by
  intro entries
  induction entries with
  | nil =>
    intro fs t fs' t' h
    rw [children_loop_nil] at h
    obtain ⟨h1, h2⟩ := St.mk.inj (Except.ok.inj h)
    subst h1
    subst h2
    refine ⟨[], by simp, rfl, fun x hx => hx, fun en => trivial, ?_⟩
    intro g u hg
    exact ⟨by simp [children_loop_nil, applyEvents], rfl⟩
  | cons child rest ih =>
    intro fs t fs' t' h
    by_cases hty : child.type = "page"
    · cases hr1 : recurse
          { cfg with output_folder :=
              cfg.output_folder ++ "/" ++ basisOf cfg.title_as_name title pid }
          child.id ⟨fs, t⟩ with
      | error c =>
        rw [children_loop_cons_page_err _ _ _ _ _ _ _ c hty hr1] at h
        exact absurd h (by simp)
      | ok st1 =>
        obtain ⟨fs1, t1⟩ := st1
        rw [children_loop_cons_page_ok _ _ _ _ _ _ _ _ hty hr1] at h
        obtain ⟨es1, ht1, hfs1, hsub1, hchk1, hrep1⟩ := hrec _ _ fs t fs1 t1 hr1
        obtain ⟨es2, ht2, hfs2, hsub2, hchk2, hrep2⟩ := ih fs1 t1 fs' t' h
        refine ⟨es1 ++ es2, ?_, ?_, hsub1.trans hsub2, ?_, ?_⟩
        · rw [ht2, ht1, List.append_assoc]
        · rw [hfs2, hfs1, applyEvents_append]
        · intro en
          exact chk_append es1 es2 en (hchk1 en) hchk2
        · intro g u hg
          have hg1 : fs1.dirs ⊆ g.dirs := hsub2.trans hg
          obtain ⟨hre1, hdir1⟩ := hrep1 g u hg1
          have hg2 : fs'.dirs ⊆ (applyEvents g es1).dirs := by
            rw [hdir1]
            exact hg
          obtain ⟨hre2, hdir2⟩ := hrep2 (applyEvents g es1) (u ++ es1) hg2
          constructor
          · rw [children_loop_cons_page_ok _ _ _ _ _ _ _ _ hty hre1, hre2,
              applyEvents_append, List.append_assoc]
          · rw [applyEvents_append, hdir2, hdir1]
    · rw [children_loop_cons_skip _ _ _ _ _ _ _ hty] at h
      obtain ⟨es2, ht2, hfs2, hsub2, hchk2, hrep2⟩ := ih fs t fs' t' h
      refine ⟨es2, ht2, hfs2, hsub2, hchk2, ?_⟩
      intro g u hg
      obtain ⟨hre2, hdir2⟩ := hrep2 g u hg
      constructor
      · rw [children_loop_cons_skip _ _ _ _ _ _ _ hty]
        exact hre2
      · exact hdir2

/-- Every `process_page` run satisfies the run invariant. -/
theorem process_page_good (rm : Remote) (base : String) :
    ∀ fuel cfg pid, GoodRunF (process_page rm base fuel cfg pid) := by
  intro fuel
  induction fuel with
  | zero =>
    intro cfg pid fs t fs' t' h
    rw [process_page_zero] at h
    obtain ⟨h1, h2⟩ := St.mk.inj (Except.ok.inj h)
    subst h1
    subst h2
    refine ⟨[], by simp, rfl, fun x hx => hx, fun en => trivial, ?_⟩
    intro g u hg
    exact ⟨by simp [process_page_zero, applyEvents], rfl⟩
  | succ fuel ih =>
    intro cfg pid fs t fs' t' h
    rw [process_page_succ] at h
    cases hcf : create_folder fs cfg.output_folder with
    | none =>
      rw [body_cf_none _ _ _ _ _ _ hcf] at h
      exact absurd h (by simp)
    | some fs1 =>
      obtain ⟨hfs1, hmem1, hsub1, hfiles1⟩ := create_folder_some _ _ _ hcf
      by_cases hs : (rm.page pid).status = 200
      · cases hc : rm.convert (rm.page pid).body with
        | none =>
          rw [body_conv_err _ rm base cfg pid ⟨fs, t⟩ fs1 hcf hs hc] at h
          exact absurd h (by simp)
        | some adoc =>
          cases hw : writeFile fs1
              (adocFilename cfg.output_folder
                (basisOf cfg.title_as_name (rm.page pid).title pid))
              (adocContent (rm.page pid).title adoc) with
          | none =>
            rw [body_write_err _ rm base cfg pid ⟨fs, t⟩ fs1 adoc hcf hs hc hw] at h
            exact absurd h (by simp)
          | some fs2 =>
            obtain ⟨hfs2, hdir2⟩ := writeFile_some _ _ _ _ hw
            have hfs2dirs : fs2.dirs = fs1.dirs := by rw [hfs2, setFile_dirs]
            have hdir2m : dirnameOf
                (adocFilename cfg.output_folder
                  (basisOf cfg.title_as_name (rm.page pid).title pid)) ∈ fs1.dirs := hdir2
            cases hrecflag : cfg.recursive with
            | false =>
              rw [body_nonrec _ rm base cfg pid ⟨fs, t⟩ fs1 fs2 adoc hcf hs hc hw hrecflag] at h
              obtain ⟨h1, h2⟩ := St.mk.inj (Except.ok.inj h)
              subst h1
              subst h2
              refine ⟨[Event.ensure cfg.output_folder, Event.fetch (pageUrl base pid),
                Event.write
                  (adocFilename cfg.output_folder
                    (basisOf cfg.title_as_name (rm.page pid).title pid))
                  (adocContent (rm.page pid).title adoc)], rfl, ?_, ?_, ?_, ?_⟩
              · rw [hfs2, hfs1]
                rfl
              · rw [hfs2dirs]
                exact hsub1
              · intro en
                exact ⟨⟨cfg.output_folder, List.mem_cons_self _ _,
                  basisOf cfg.title_as_name (rm.page pid).title pid ++ ".adoc",
                  String.append_assoc _ _ _⟩, trivial⟩
              · intro g u hg
                have hmg : cfg.output_folder ∈ g.dirs := hg (hfs2dirs.symm ▸ hmem1)
                have hdg : dirnameOf
                    (adocFilename cfg.output_folder
                      (basisOf cfg.title_as_name (rm.page pid).title pid)) ∈ g.dirs :=
                  hg (hfs2dirs.symm ▸ hdir2m)
                have hA : applyEvents g [Event.ensure cfg.output_folder,
                    Event.fetch (pageUrl base pid),
                    Event.write
                      (adocFilename cfg.output_folder
                        (basisOf cfg.title_as_name (rm.page pid).title pid))
                      (adocContent (rm.page pid).title adoc)] =
                    setFile g
                      (adocFilename cfg.output_folder
                        (basisOf cfg.title_as_name (rm.page pid).title pid))
                      (adocContent (rm.page pid).title adoc) := by
                  show setFile (applyEvent g (Event.ensure cfg.output_folder)) _ _ = _
                  rw [applyEvent_ensure_mem g _ hmg]
                constructor
                · rw [process_page_succ,
                    body_nonrec _ rm base cfg pid ⟨g, u⟩ g _ adoc
                      (create_folder_mem g _ hmg) hs hc
                      (writeFile_of_dir g _ _ hdg) hrecflag, hA]
                · rw [hA]
                  exact setFile_dirs _ _ _
            | true =>
              by_cases hcs : (rm.children pid).status = 200
              · rw [body_rec _ rm base cfg pid ⟨fs, t⟩ fs1 fs2 adoc hcf hs hc hw hrecflag hcs] at h
                have hLoop := children_loop_good (process_page rm base fuel)
                  (fun c i => ih c i) cfg (rm.page pid).title pid (rm.children pid).results
                obtain ⟨es1, ht1, hfsL, hsubL, hchkL, hrepL⟩ := hLoop _ _ _ _ h
                refine ⟨[Event.ensure cfg.output_folder, Event.fetch (pageUrl base pid),
                  Event.write
                    (adocFilename cfg.output_folder
                      (basisOf cfg.title_as_name (rm.page pid).title pid))
                    (adocContent (rm.page pid).title adoc),
                  Event.listChildren (childUrl base pid)] ++ es1, ?_, ?_, ?_, ?_, ?_⟩
                · rw [ht1]
                  exact List.append_assoc t _ _
                · rw [hfsL, applyEvents_append]
                  congr 1
                  rw [hfs2, hfs1]
                  rfl
                · refine hsub1.trans ?_
                  rw [← hfs2dirs]
                  exact hsubL
                · intro en
                  show writeCovered (cfg.output_folder :: en)
                      (adocFilename cfg.output_folder
                        (basisOf cfg.title_as_name (rm.page pid).title pid)) ∧
                    chk (cfg.output_folder :: en) es1
                  exact ⟨⟨cfg.output_folder, List.mem_cons_self _ _,
                    basisOf cfg.title_as_name (rm.page pid).title pid ++ ".adoc",
                    String.append_assoc _ _ _⟩, hchkL _⟩
                · intro g u hg
                  have hm2 : cfg.output_folder ∈ fs2.dirs := hfs2dirs.symm ▸ hmem1
                  have hmg : cfg.output_folder ∈ g.dirs := hg (hsubL hm2)
                  have hd2 : dirnameOf
                      (adocFilename cfg.output_folder
                        (basisOf cfg.title_as_name (rm.page pid).title pid)) ∈ fs2.dirs :=
                    hfs2dirs.symm ▸ hdir2m
                  have hdg : dirnameOf
                      (adocFilename cfg.output_folder
                        (basisOf cfg.title_as_name (rm.page pid).title pid)) ∈ g.dirs :=
                    hg (hsubL hd2)
                  have hA : applyEvents g [Event.ensure cfg.output_folder,
                      Event.fetch (pageUrl base pid),
                      Event.write
                        (adocFilename cfg.output_folder
                          (basisOf cfg.title_as_name (rm.page pid).title pid))
                        (adocContent (rm.page pid).title adoc),
                      Event.listChildren (childUrl base pid)] =
                      setFile g
                        (adocFilename cfg.output_folder
                          (basisOf cfg.title_as_name (rm.page pid).title pid))
                        (adocContent (rm.page pid).title adoc) := by
                    show setFile (applyEvent g (Event.ensure cfg.output_folder)) _ _ = _
                    rw [applyEvent_ensure_mem g _ hmg]
                  have hgL : fs'.dirs ⊆ (setFile g
                      (adocFilename cfg.output_folder
                        (basisOf cfg.title_as_name (rm.page pid).title pid))
                      (adocContent (rm.page pid).title adoc)).dirs := hg
                  obtain ⟨hreL, hdirL⟩ := hrepL _
                    (u ++ [Event.ensure cfg.output_folder, Event.fetch (pageUrl base pid),
                      Event.write
                        (adocFilename cfg.output_folder
                          (basisOf cfg.title_as_name (rm.page pid).title pid))
                        (adocContent (rm.page pid).title adoc),
                      Event.listChildren (childUrl base pid)]) hgL
                  constructor
                  · rw [process_page_succ,
                      body_rec _ rm base cfg pid ⟨g, u⟩ g _ adoc
                        (create_folder_mem g _ hmg) hs hc
                        (writeFile_of_dir g _ _ hdg) hrecflag hcs,
                      hreL, applyEvents_append, hA, List.append_assoc]
                  · rw [applyEvents_append, hA, hdirL]
                    exact setFile_dirs _ _ _
              · rw [body_list_err _ rm base cfg pid ⟨fs, t⟩ fs1 fs2 adoc hcf hs hc hw hrecflag hcs] at h
                obtain ⟨h1, h2⟩ := St.mk.inj (Except.ok.inj h)
                subst h1
                subst h2
                refine ⟨[Event.ensure cfg.output_folder, Event.fetch (pageUrl base pid),
                  Event.write
                    (adocFilename cfg.output_folder
                      (basisOf cfg.title_as_name (rm.page pid).title pid))
                    (adocContent (rm.page pid).title adoc),
                  Event.listChildren (childUrl base pid)], rfl, ?_, ?_, ?_, ?_⟩
                · rw [hfs2, hfs1]
                  rfl
                · rw [hfs2dirs]
                  exact hsub1
                · intro en
                  exact ⟨⟨cfg.output_folder, List.mem_cons_self _ _,
                    basisOf cfg.title_as_name (rm.page pid).title pid ++ ".adoc",
                    String.append_assoc _ _ _⟩, trivial⟩
                · intro g u hg
                  have hmg : cfg.output_folder ∈ g.dirs := hg (hfs2dirs.symm ▸ hmem1)
                  have hdg : dirnameOf
                      (adocFilename cfg.output_folder
                        (basisOf cfg.title_as_name (rm.page pid).title pid)) ∈ g.dirs :=
                    hg (hfs2dirs.symm ▸ hdir2m)
                  have hA : applyEvents g [Event.ensure cfg.output_folder,
                      Event.fetch (pageUrl base pid),
                      Event.write
                        (adocFilename cfg.output_folder
                          (basisOf cfg.title_as_name (rm.page pid).title pid))
                        (adocContent (rm.page pid).title adoc),
                      Event.listChildren (childUrl base pid)] =
                      setFile g
                        (adocFilename cfg.output_folder
                          (basisOf cfg.title_as_name (rm.page pid).title pid))
                        (adocContent (rm.page pid).title adoc) := by
                    show setFile (applyEvent g (Event.ensure cfg.output_folder)) _ _ = _
                    rw [applyEvent_ensure_mem g _ hmg]
                  constructor
                  · rw [process_page_succ,
                      body_list_err _ rm base cfg pid ⟨g, u⟩ g _ adoc
                        (create_folder_mem g _ hmg) hs hc
                        (writeFile_of_dir g _ _ hdg) hrecflag hcs, hA]
                  · rw [hA]
                    exact setFile_dirs _ _ _
      · rw [body_skip _ rm base cfg pid ⟨fs, t⟩ fs1 hcf hs] at h
        obtain ⟨h1, h2⟩ := St.mk.inj (Except.ok.inj h)
        subst h1
        subst h2
        refine ⟨[Event.ensure cfg.output_folder, Event.fetch (pageUrl base pid)],
          rfl, ?_, hsub1, fun en => trivial, ?_⟩
        · exact hfs1
        · intro g u hg
          have hmg : cfg.output_folder ∈ g.dirs := hg hmem1
          have hA : applyEvents g [Event.ensure cfg.output_folder,
              Event.fetch (pageUrl base pid)] = g := by
            show applyEvent (applyEvent g (Event.ensure cfg.output_folder))
              (Event.fetch (pageUrl base pid)) = g
            rw [applyEvent_ensure_mem g _ hmg]
            rfl
          constructor
          · rw [process_page_succ,
              body_skip _ rm base cfg pid ⟨g, u⟩ g (create_folder_mem g _ hmg) hs, hA]
          · rw [hA]

/-! ## The claims -/

/-- C9: if `CONFLUENCE_USERNAME` or `CONFLUENCE_PASSWORD` is unset (or
empty), the process exits with status 1 before any network call — the
result is `.error 1` for every remote oracle, whatever the other arguments
supplied. -/
theorem c9_missing_credentials_exit1 (fuel : Nat) (env : EnvVars) (args : Args)
    (fs : FS) (h : env.username.getD "" = "" ∨ env.password.getD "" = "") :
    ∀ rm : Remote, main_run fuel rm env args fs = .error 1 := by
  intro rm
  unfold main_run
  rw [if_pos h]

/-- C9 witness: username unset. -/
theorem c9_witness : main_run 1 rmA ⟨none, some "pw"⟩ argsDemo fs0 = .error 1 :=
  c9_missing_credentials_exit1 1 ⟨none, some "pw"⟩ argsDemo fs0 (Or.inl rfl) rmA

/-- C10: the output folder is ensured before the fetch is attempted: when
the fetch answers a non-200 status, the invocation still returns normally
with the `ensure` preceding the `fetch` in the trace, the configured output
folder present among the directories, and no file written. -/
theorem c10_folder_before_fetch (rm : Remote) (base : String) (fuel : Nat)
    (cfg : Config) (pid : Nat) (fs : FS) (t : List Event) (fs1 : FS)
    (hcf : create_folder fs cfg.output_folder = some fs1)
    (hs : (rm.page pid).status ≠ 200) :
    process_page rm base (fuel + 1) cfg pid ⟨fs, t⟩ =
      .ok ⟨fs1, t ++ [Event.ensure cfg.output_folder,
        Event.fetch (pageUrl base pid)]⟩ ∧
    cfg.output_folder ∈ fs1.dirs ∧ fs1.files = fs.files := by
  obtain ⟨hfs1, hmem1, hsub1, hfiles1⟩ := create_folder_some _ _ _ hcf
  exact ⟨by rw [process_page_succ, body_skip _ rm base cfg pid ⟨fs, t⟩ fs1 hcf hs],
    hmem1, hfiles1⟩

/-- C10 witness: page 99 answers 404 over the empty filesystem; the folder
`out` exists afterwards and no file was written. -/
theorem c10_witness :
    process_page rmA "w" 1 cfgN 99 ⟨fs0, []⟩ =
      .ok ⟨⟨[], ["out"]⟩, [Event.ensure "out",
        Event.fetch "w/99?expand=body.storage"]⟩ ∧
    "out" ∈ (⟨[], ["out"]⟩ : FS).dirs ∧ (⟨[], ["out"]⟩ : FS).files = fs0.files :=
  c10_folder_before_fetch rmA "w" 0 cfgN 99 fs0 [] ⟨[], ["out"]⟩ (by decide)
    (by decide)

/-- C7: (1) if the configured output path exists but is not a folder, the
invocation exits with status 1 for every remote oracle — so before any
fetch; (2) an absent output folder is created; (3) in every successful run,
each write in the emitted trace lands inside a folder whose `ensure`
precedes it in that trace. -/
theorem c7_folder_invariant (base : String) (fuel : Nat) (cfg : Config)
    (pid : Nat) (fs : FS) (t : List Event)
    (hex : fs.exists_path cfg.output_folder)
    (hnd : ¬ fs.is_dir cfg.output_folder) :
    (∀ rm : Remote, process_page rm base (fuel + 1) cfg pid ⟨fs, t⟩ = .error 1) ∧
    (∀ g : FS, ∀ f : String, ¬ g.exists_path f →
      create_folder g f = some { g with dirs := f :: g.dirs }) ∧
    (∀ rm : Remote, ∀ (fuel' : Nat) (cfg' : Config) (pid' : Nat) (st st' : St),
      process_page rm base fuel' cfg' pid' st = .ok st' →
      ∃ es, st'.trace = st.trace ++ es ∧ ∀ en, chk en es) := by
  refine ⟨?_, ?_, ?_⟩
  · intro rm
    have hcf : create_folder fs cfg.output_folder = none := by
      unfold create_folder
      rw [if_pos ⟨hex, hnd⟩]
    rw [process_page_succ, body_cf_none _ _ _ _ _ _ hcf]
  · intro g f hne
    unfold create_folder
    rw [if_neg (fun hx => hne hx.1), if_pos hne]
  · intro rm fuel' cfg' pid' st st' h
    obtain ⟨es, ht, hfs, hsub, hchk, hrep⟩ :=
      process_page_good rm base fuel' cfg' pid' st.fs st.trace st'.fs st'.trace h
    exact ⟨es, ht, hchk⟩

/-- C7 witness: the path `out` exists as a regular file. -/
theorem c7_witness :
    process_page rmA "w" 1 cfgN 1 ⟨⟨[("out", "x")], []⟩, []⟩ = .error 1 :=
  (c7_folder_invariant "w" 0 cfgN 1 ⟨[("out", "x")], []⟩ [] (by decide)
    (by decide)).1 rmA

/-- C5 counterexample: status 201 is 2xx, yet line 48 tests `!= 200`, so the
run logs and skips: no file is written even though the body would convert —
"every 2xx fetch response is processed as a success" is false at 201. -/
theorem c5_counterexample :
    (rm201.page 7).status = 201 ∧
    rm201.convert (rm201.page 7).body = some "A:b" ∧
    process_page rm201 "w" 1 cfgN 7 ⟨fs0, []⟩ =
      .ok ⟨⟨[], ["out"]⟩, [Event.ensure "out",
        Event.fetch "w/7?expand=body.storage"]⟩ :=
  ⟨rfl, rfl, rfl⟩

/-- C5 (amended): the exporter treats a response as an error exactly when
its status differs from 200 (not: is outside 2xx).  A non-200 fetch writes
nothing and returns normally; a 200 fetch whose body converts and whose
write succeeds produces the page's file; with recursion on, a non-200 child
listing traverses zero children and leaves the parent's freshly written
file in place. -/
theorem c5_non200_skips (rm : Remote) (base : String) (fuel : Nat)
    (cfg : Config) (pid : Nat) (fs : FS) (t : List Event) (fs1 : FS)
    (adoc : String)
    (hcf : create_folder fs cfg.output_folder = some fs1) :
    ((rm.page pid).status ≠ 200 →
      process_page rm base (fuel + 1) cfg pid ⟨fs, t⟩ =
        .ok ⟨fs1, t ++ [Event.ensure cfg.output_folder,
          Event.fetch (pageUrl base pid)]⟩ ∧
      fs1.files = fs.files) ∧
    ((rm.page pid).status = 200 →
      rm.convert (rm.page pid).body = some adoc →
      ∀ fs2 : FS,
      writeFile fs1
        (adocFilename cfg.output_folder
          (basisOf cfg.title_as_name (rm.page pid).title pid))
        (adocContent (rm.page pid).title adoc) = some fs2 →
      cfg.recursive = false →
      process_page rm base (fuel + 1) cfg pid ⟨fs, t⟩ =
        .ok ⟨fs2, t ++ [Event.ensure cfg.output_folder,
          Event.fetch (pageUrl base pid),
          Event.write
            (adocFilename cfg.output_folder
              (basisOf cfg.title_as_name (rm.page pid).title pid))
            (adocContent (rm.page pid).title adoc)]⟩ ∧
      lookupFile fs2.files
        (adocFilename cfg.output_folder
          (basisOf cfg.title_as_name (rm.page pid).title pid)) =
        some (adocContent (rm.page pid).title adoc)) ∧
    ((rm.page pid).status = 200 →
      rm.convert (rm.page pid).body = some adoc →
      ∀ fs2 : FS,
      writeFile fs1
        (adocFilename cfg.output_folder
          (basisOf cfg.title_as_name (rm.page pid).title pid))
        (adocContent (rm.page pid).title adoc) = some fs2 →
      cfg.recursive = true →
      (rm.children pid).status ≠ 200 →
      process_page rm base (fuel + 1) cfg pid ⟨fs, t⟩ =
        .ok ⟨fs2, t ++ [Event.ensure cfg.output_folder,
          Event.fetch (pageUrl base pid),
          Event.write
            (adocFilename cfg.output_folder
              (basisOf cfg.title_as_name (rm.page pid).title pid))
            (adocContent (rm.page pid).title adoc),
          Event.listChildren (childUrl base pid)]⟩ ∧
      lookupFile fs2.files
        (adocFilename cfg.output_folder
          (basisOf cfg.title_as_name (rm.page pid).title pid)) =
        some (adocContent (rm.page pid).title adoc)) := by
  refine ⟨?_, ?_, ?_⟩
  · intro hs
    exact ⟨by rw [process_page_succ, body_skip _ rm base cfg pid ⟨fs, t⟩ fs1 hcf hs],
      (create_folder_some _ _ _ hcf).2.2.2⟩
  · intro hs hc fs2 hw hr
    obtain ⟨hfs2, hdir2⟩ := writeFile_some _ _ _ _ hw
    constructor
    · rw [process_page_succ, body_nonrec _ rm base cfg pid ⟨fs, t⟩ fs1 fs2 adoc hcf hs hc hw hr]
    · rw [hfs2, lookupFile_setFile, if_pos rfl]
  · intro hs hc fs2 hw hr hcs
    obtain ⟨hfs2, hdir2⟩ := writeFile_some _ _ _ _ hw
    constructor
    · rw [process_page_succ, body_list_err _ rm base cfg pid ⟨fs, t⟩ fs1 fs2 adoc hcf hs hc hw hr hcs]
    · rw [hfs2, lookupFile_setFile, if_pos rfl]

/-- C5 witness: a successful 200 fetch of page 1, non-recursively. -/
theorem c5_witness :
    process_page rmA "w" 1 cfgN 1 ⟨fs0, []⟩ =
      .ok ⟨⟨[("out/1.adoc", "= Root\n\nA:b1")], ["out"]⟩,
        [Event.ensure "out", Event.fetch "w/1?expand=body.storage",
         Event.write "out/1.adoc" "= Root\n\nA:b1"]⟩ ∧
    lookupFile [("out/1.adoc", "= Root\n\nA:b1")] "out/1.adoc" =
      some "= Root\n\nA:b1" :=
  (c5_non200_skips rmA "w" 0 cfgN 1 fs0 [] ⟨[], ["out"]⟩ "A:b1"
    (by decide)).2.1 rfl rfl ⟨[("out/1.adoc", "= Root\n\nA:b1")], ["out"]⟩
    (by decide) rfl

/-- C3 counterexample: with the titles flag set and the fetched title
`Setup//Guide`, the file is written at
`out/<normpath(title)>.adoc = out/Setup/Guide.adoc`, and the path the claim
predicts, `out/<title>.adoc = out/Setup//Guide.adoc`, holds no file: the
basis is not the title itself. -/
theorem c3_counterexample :
    (rmC3.page 123).title = "Setup//Guide" ∧
    process_page rmC3 "w" 1 cfgC3 123 ⟨⟨[], ["out", "out/Setup"]⟩, []⟩ =
      .ok ⟨⟨[("out/Setup/Guide.adoc", "= Setup//Guide\n\nC")],
            ["out", "out/Setup"]⟩,
        [Event.ensure "out", Event.fetch "w/123?expand=body.storage",
         Event.write "out/Setup/Guide.adoc" "= Setup//Guide\n\nC"]⟩ ∧
    lookupFile [("out/Setup/Guide.adoc", "= Setup//Guide\n\nC")]
      ("out" ++ "/" ++ "Setup//Guide" ++ ".adoc") = none :=
  ⟨rfl, rfl, rfl⟩

/-- C3 (amended): for every successfully fetched page exactly one file is
produced for it, at `<folder>/<basis>.adoc` where the basis is the numeric
id when the titles flag is unset and `os.path.normpath` of the title (not
the raw title) when it is set; the content is `"= " ++ title ++ "\n\n"`
followed by the converter's output, and the write replaces any stale file
at that path. -/
theorem c3_file_per_page (rm : Remote) (base : String) (fuel : Nat)
    (cfg : Config) (pid : Nat) (fs : FS) (t : List Event) (fs1 fs2 : FS)
    (adoc : String)
    (hcf : create_folder fs cfg.output_folder = some fs1)
    (hs : (rm.page pid).status = 200)
    (hc : rm.convert (rm.page pid).body = some adoc)
    (hw : writeFile fs1
      (adocFilename cfg.output_folder
        (basisOf cfg.title_as_name (rm.page pid).title pid))
      (adocContent (rm.page pid).title adoc) = some fs2)
    (hr : cfg.recursive = false) :
    process_page rm base (fuel + 1) cfg pid ⟨fs, t⟩ =
      .ok ⟨fs2, t ++ [Event.ensure cfg.output_folder,
        Event.fetch (pageUrl base pid),
        Event.write
          (adocFilename cfg.output_folder
            (if cfg.title_as_name then normpath (rm.page pid).title
             else toString pid))
          (adocContent (rm.page pid).title adoc)]⟩ ∧
    fs2.files =
      (adocFilename cfg.output_folder
          (basisOf cfg.title_as_name (rm.page pid).title pid),
        adocContent (rm.page pid).title adoc) ::
        fs.files.filter (fun kv => kv.1 ≠
          adocFilename cfg.output_folder
            (basisOf cfg.title_as_name (rm.page pid).title pid)) ∧
    lookupFile fs2.files
      (adocFilename cfg.output_folder
        (basisOf cfg.title_as_name (rm.page pid).title pid)) =
      some (adocContent (rm.page pid).title adoc) := by
  obtain ⟨hfs2, hdir2⟩ := writeFile_some _ _ _ _ hw
  have hfiles1 := (create_folder_some _ _ _ hcf).2.2.2
  refine ⟨?_, ?_, ?_⟩
  · rw [process_page_succ,
      body_nonrec _ rm base cfg pid ⟨fs, t⟩ fs1 fs2 adoc hcf hs hc hw hr]
    rfl
  · rw [hfs2]
    show (_, _) :: fs1.files.filter _ = (_, _) :: fs.files.filter _
    rw [hfiles1]
  · rw [hfs2, lookupFile_setFile, if_pos rfl]

/-- C3 witness: page titled `Setup Guide` with the titles flag set produces
`out/Setup Guide.adoc`. -/
theorem c3_witness :
    process_page rmT "w" 1 cfgC3 123 ⟨fs0, []⟩ =
      .ok ⟨⟨[("out/Setup Guide.adoc", "= Setup Guide\n\nC")], ["out"]⟩,
        [Event.ensure "out", Event.fetch "w/123?expand=body.storage",
         Event.write "out/Setup Guide.adoc" "= Setup Guide\n\nC"]⟩ ∧
    (⟨[("out/Setup Guide.adoc", "= Setup Guide\n\nC")], ["out"]⟩ : FS).files =
      ("out/Setup Guide.adoc", "= Setup Guide\n\nC") ::
        fs0.files.filter (fun kv => kv.1 ≠ "out/Setup Guide.adoc") ∧
    lookupFile
      (⟨[("out/Setup Guide.adoc", "= Setup Guide\n\nC")], ["out"]⟩ : FS).files
      "out/Setup Guide.adoc" = some "= Setup Guide\n\nC" :=
  c3_file_per_page rmT "w" 0 cfgC3 123 fs0 [] ⟨[], ["out"]⟩
    ⟨[("out/Setup Guide.adoc", "= Setup Guide\n\nC")], ["out"]⟩ "C"
    (by decide) rfl rfl (by decide) rfl

/-- C6 counterexample: the title `a/b` is kept verbatim by
`os.path.normpath`, so with the titles flag set the basis contains a path
separator and the file lands at `out/a/b.adoc`, inside the subdirectory
`out/a` rather than directly in the output folder. -/
theorem c6_counterexample :
    basisOf true "a/b" 9 = "a/b" ∧
    '/' ∈ (basisOf true "a/b" 9).toList ∧
    process_page rmC6 "w" 1 cfgC3 9 ⟨⟨[], ["out", "out/a"]⟩, []⟩ =
      .ok ⟨⟨[("out/a/b.adoc", "= a/b\n\nX")], ["out", "out/a"]⟩,
        [Event.ensure "out", Event.fetch "w/9?expand=body.storage",
         Event.write "out/a/b.adoc" "= a/b\n\nX"]⟩ :=
  ⟨rfl, by decide, rfl⟩

/-- C6 (amended): with the titles flag set the basis for file and subfolder
names is `os.path.normpath(title)`.  `normpath` is not a filesystem
sanitizer: it can retain path separators, so the basis is not guaranteed to
be a single path component and the output file need not land directly in
the configured output folder. -/
theorem c6_basis_is_normpath (rm : Remote) (base : String) (fuel : Nat)
    (cfg : Config) (pid : Nat) (fs : FS) (t : List Event) (fs1 fs2 : FS)
    (adoc : String)
    (hcf : create_folder fs cfg.output_folder = some fs1)
    (hs : (rm.page pid).status = 200)
    (hc : rm.convert (rm.page pid).body = some adoc)
    (hw : writeFile fs1
      (adocFilename cfg.output_folder
        (basisOf cfg.title_as_name (rm.page pid).title pid))
      (adocContent (rm.page pid).title adoc) = some fs2)
    (hr : cfg.recursive = false)
    (htitle : cfg.title_as_name = true) :
    basisOf cfg.title_as_name (rm.page pid).title pid =
      normpath (rm.page pid).title ∧
    process_page rm base (fuel + 1) cfg pid ⟨fs, t⟩ =
      .ok ⟨fs2, t ++ [Event.ensure cfg.output_folder,
        Event.fetch (pageUrl base pid),
        Event.write
          (adocFilename cfg.output_folder (normpath (rm.page pid).title))
          (adocContent (rm.page pid).title adoc)]⟩ ∧
    '/' ∈ (normpath "a/b").toList := by
  have hb : basisOf cfg.title_as_name (rm.page pid).title pid =
      normpath (rm.page pid).title := by
    rw [basisOf, htitle]
    rfl
  refine ⟨hb, ?_, by decide⟩
  rw [process_page_succ,
    body_nonrec _ rm base cfg pid ⟨fs, t⟩ fs1 fs2 adoc hcf hs hc hw hr, hb]

/-- C6 witness: the `rmC6` scenario instantiates the amended theorem. -/
theorem c6_witness :
    basisOf cfgC3.title_as_name (rmC6.page 9).title 9 =
      normpath (rmC6.page 9).title ∧
    process_page rmC6 "w" 1 cfgC3 9 ⟨⟨[], ["out", "out/a"]⟩, []⟩ =
      .ok ⟨⟨[("out/a/b.adoc", "= a/b\n\nX")], ["out", "out/a"]⟩,
        [Event.ensure "out", Event.fetch "w/9?expand=body.storage",
         Event.write ("out" ++ "/" ++ normpath "a/b" ++ ".adoc")
           "= a/b\n\nX"]⟩ ∧
    '/' ∈ (normpath "a/b").toList :=
  c6_basis_is_normpath rmC6 "w" 0 cfgC3 9 ⟨[], ["out", "out/a"]⟩ []
    ⟨[], ["out", "out/a"]⟩ ⟨[("out/a/b.adoc", "= a/b\n\nX")], ["out", "out/a"]⟩
    "X" (by decide) rfl rfl (by decide) rfl rfl

/-- C1: the child lister is consulted if and only if the recursion flag is
set.  With the flag off the run stops after the page's own write and never
emits a child-listing event — indeed the result does not depend on the
children oracle at all.  With the flag on, the listed entries are handed to
the loop; the loop skips every entry whose type is not `"page"` and recurses
exactly on the `"page"` entries, each with an output folder equal to
`<current folder>/<basis>` where the basis comes from the current page's
title or id (per the titles flag), not from the child's. -/
theorem c1_recursion_gate (rm : Remote) (base : String) (fuel : Nat)
    (cfg : Config) (pid : Nat) (fs : FS) (t : List Event) (fs1 fs2 : FS)
    (adoc : String)
    (hcf : create_folder fs cfg.output_folder = some fs1)
    (hs : (rm.page pid).status = 200)
    (hc : rm.convert (rm.page pid).body = some adoc)
    (hw : writeFile fs1
      (adocFilename cfg.output_folder
        (basisOf cfg.title_as_name (rm.page pid).title pid))
      (adocContent (rm.page pid).title adoc) = some fs2) :
    (cfg.recursive = false →
      process_page rm base (fuel + 1) cfg pid ⟨fs, t⟩ =
        .ok ⟨fs2, t ++ [Event.ensure cfg.output_folder,
          Event.fetch (pageUrl base pid),
          Event.write
            (adocFilename cfg.output_folder
              (basisOf cfg.title_as_name (rm.page pid).title pid))
            (adocContent (rm.page pid).title adoc)]⟩) ∧
    (cfg.recursive = false → ∀ rm' : Remote, rm'.page = rm.page →
      rm'.convert = rm.convert →
      process_page rm' base (fuel + 1) cfg pid ⟨fs, t⟩ =
        process_page rm base (fuel + 1) cfg pid ⟨fs, t⟩) ∧
    (cfg.recursive = true → (rm.children pid).status = 200 →
      process_page rm base (fuel + 1) cfg pid ⟨fs, t⟩ =
        children_loop (process_page rm base fuel) cfg (rm.page pid).title pid
          (rm.children pid).results
          ⟨fs2, t ++ [Event.ensure cfg.output_folder,
            Event.fetch (pageUrl base pid),
            Event.write
              (adocFilename cfg.output_folder
                (basisOf cfg.title_as_name (rm.page pid).title pid))
              (adocContent (rm.page pid).title adoc),
            Event.listChildren (childUrl base pid)]⟩) ∧
    (∀ (recurse : Config → Nat → St → Except Nat St) (cfg' : Config)
      (title' : String) (pid' : Nat) (child : ChildEntry)
      (rest : List ChildEntry) (st : St), ¬ child.type = "page" →
      children_loop recurse cfg' title' pid' (child :: rest) st =
        children_loop recurse cfg' title' pid' rest st) ∧
    (∀ (recurse : Config → Nat → St → Except Nat St) (cfg' : Config)
      (title' : String) (pid' : Nat) (child : ChildEntry)
      (rest : List ChildEntry) (st st1 : St), child.type = "page" →
      recurse
        { cfg' with output_folder :=
            cfg'.output_folder ++ "/" ++
              basisOf cfg'.title_as_name title' pid' }
        child.id st = .ok st1 →
      children_loop recurse cfg' title' pid' (child :: rest) st =
        children_loop recurse cfg' title' pid' rest st1) := by
  refine ⟨?_, ?_, ?_, ?_, ?_⟩
  · intro hr
    rw [process_page_succ,
      body_nonrec _ rm base cfg pid ⟨fs, t⟩ fs1 fs2 adoc hcf hs hc hw hr]
  · intro hr rm' hpage hconv
    have hs' : (rm'.page pid).status = 200 := by rw [hpage]; exact hs
    have hc' : rm'.convert (rm'.page pid).body = some adoc := by
      rw [hconv, hpage]; exact hc
    have hw' : writeFile fs1
        (adocFilename cfg.output_folder
          (basisOf cfg.title_as_name (rm'.page pid).title pid))
        (adocContent (rm'.page pid).title adoc) = some fs2 := by
      rw [hpage]; exact hw
    rw [process_page_succ,
      body_nonrec _ rm' base cfg pid ⟨fs, t⟩ fs1 fs2 adoc hcf hs' hc' hw' hr,
      process_page_succ,
      body_nonrec _ rm base cfg pid ⟨fs, t⟩ fs1 fs2 adoc hcf hs hc hw hr,
      hpage]
  · intro hr hcs
    rw [process_page_succ,
      body_rec _ rm base cfg pid ⟨fs, t⟩ fs1 fs2 adoc hcf hs hc hw hr hcs]
  · intro recurse cfg' title' pid' child rest st hty
    exact children_loop_cons_skip recurse cfg' title' pid' child rest st hty
  · intro recurse cfg' title' pid' child rest st st1 hty h1
    exact children_loop_cons_page_ok recurse cfg' title' pid' child rest st st1 hty h1

/-- C1 witness: page 1 of `rmA` in recursive mode hands its children (in API
order) to the loop with the subfolder basis taken from page 1. -/
theorem c1_witness :
    process_page rmA "w" 3 cfgR 1 ⟨fs0, []⟩ =
      children_loop (process_page rmA "w" 2) cfgR "Root" 1
        [⟨2, "C1", "page"⟩, ⟨3, "C2", "attachment"⟩, ⟨4, "C3", "page"⟩]
        ⟨⟨[("out/1.adoc", "= Root\n\nA:b1")], ["out"]⟩,
         [Event.ensure "out", Event.fetch "w/1?expand=body.storage",
          Event.write "out/1.adoc" "= Root\n\nA:b1",
          Event.listChildren "w/1/child/page"]⟩ :=
  (c1_recursion_gate rmA "w" 2 cfgR 1 fs0 [] ⟨[], ["out"]⟩
    ⟨[("out/1.adoc", "= Root\n\nA:b1")], ["out"]⟩ "A:b1" (by decide) rfl rfl
    (by decide)).2.2.1 rfl rfl

/-- C2: depth-first pre-order.  The page's own write is already in the trace
handed to the children loop, every successful loop run only appends events
to that trace (so each descendant's write comes after the page's own), and
the loop visits the listed entries head first, in exactly the order the API
returned them — no sorting is imposed. -/
theorem c2_preorder (rm : Remote) (base : String) (fuel : Nat)
    (cfg : Config) (pid : Nat) (fs : FS) (t : List Event) (fs1 fs2 : FS)
    (adoc : String)
    (hcf : create_folder fs cfg.output_folder = some fs1)
    (hs : (rm.page pid).status = 200)
    (hc : rm.convert (rm.page pid).body = some adoc)
    (hw : writeFile fs1
      (adocFilename cfg.output_folder
        (basisOf cfg.title_as_name (rm.page pid).title pid))
      (adocContent (rm.page pid).title adoc) = some fs2)
    (hr : cfg.recursive = true)
    (hcs : (rm.children pid).status = 200) :
    process_page rm base (fuel + 1) cfg pid ⟨fs, t⟩ =
      children_loop (process_page rm base fuel) cfg (rm.page pid).title pid
        (rm.children pid).results
        ⟨fs2, t ++ [Event.ensure cfg.output_folder,
          Event.fetch (pageUrl base pid),
          Event.write
            (adocFilename cfg.output_folder
              (basisOf cfg.title_as_name (rm.page pid).title pid))
            (adocContent (rm.page pid).title adoc),
          Event.listChildren (childUrl base pid)]⟩ ∧
    (∀ (entries : List ChildEntry) (st st' : St),
      children_loop (process_page rm base fuel) cfg (rm.page pid).title pid
        entries st = .ok st' →
      ∃ es, st'.trace = st.trace ++ es) ∧
    (∀ (recurse : Config → Nat → St → Except Nat St) (cfg' : Config)
      (title' : String) (pid' : Nat) (child : ChildEntry)
      (rest : List ChildEntry) (st st1 : St), child.type = "page" →
      recurse
        { cfg' with output_folder :=
            cfg'.output_folder ++ "/" ++
              basisOf cfg'.title_as_name title' pid' }
        child.id st = .ok st1 →
      children_loop recurse cfg' title' pid' (child :: rest) st =
        children_loop recurse cfg' title' pid' rest st1) ∧
    (∀ (recurse : Config → Nat → St → Except Nat St) (cfg' : Config)
      (title' : String) (pid' : Nat) (child : ChildEntry)
      (rest : List ChildEntry) (st : St), ¬ child.type = "page" →
      children_loop recurse cfg' title' pid' (child :: rest) st =
        children_loop recurse cfg' title' pid' rest st) := by
  refine ⟨?_, ?_, ?_, ?_⟩
  · rw [process_page_succ,
      body_rec _ rm base cfg pid ⟨fs, t⟩ fs1 fs2 adoc hcf hs hc hw hr hcs]
  · intro entries st st' h
    obtain ⟨es, ht, hfs, hsub, hchk, hrep⟩ :=
      children_loop_good (process_page rm base fuel)
        (fun c i => process_page_good rm base fuel c i) cfg
        (rm.page pid).title pid entries st.fs st.trace st'.fs st'.trace h
    exact ⟨es, ht⟩
  · intro recurse cfg' title' pid' child rest st st1 hty h1
    exact children_loop_cons_page_ok recurse cfg' title' pid' child rest st st1 hty h1
  · intro recurse cfg' title' pid' child rest st hty
    exact children_loop_cons_skip recurse cfg' title' pid' child rest st hty

/-- C2 witness: running page 1's children loop appends the descendants'
events after the already-written root file's events. -/
theorem c2_witness :
    ∃ es,
      [Event.ensure "out", Event.fetch "w/1?expand=body.storage",
       Event.write "out/1.adoc" "= Root\n\nA:b1",
       Event.listChildren "w/1/child/page",
       Event.ensure "out/1", Event.fetch "w/2?expand=body.storage",
       Event.write "out/1/2.adoc" "= Two\n\nA:b2",
       Event.listChildren "w/2/child/page",
       Event.ensure "out/1", Event.fetch "w/4?expand=body.storage",
       Event.write "out/1/4.adoc" "= Four\n\nA:b4",
       Event.listChildren "w/4/child/page"] =
      [Event.ensure "out", Event.fetch "w/1?expand=body.storage",
       Event.write "out/1.adoc" "= Root\n\nA:b1",
       Event.listChildren "w/1/child/page"] ++ es :=
  (c2_preorder rmA "w" 2 cfgR 1 fs0 [] ⟨[], ["out"]⟩
    ⟨[("out/1.adoc", "= Root\n\nA:b1")], ["out"]⟩ "A:b1" (by decide) rfl rfl
    (by decide) rfl rfl).2.1
    [⟨2, "C1", "page"⟩, ⟨3, "C2", "attachment"⟩, ⟨4, "C3", "page"⟩]
    ⟨⟨[("out/1.adoc", "= Root\n\nA:b1")], ["out"]⟩,
      [Event.ensure "out", Event.fetch "w/1?expand=body.storage",
       Event.write "out/1.adoc" "= Root\n\nA:b1",
       Event.listChildren "w/1/child/page"]⟩
    ⟨⟨[("out/1/4.adoc", "= Four\n\nA:b4"), ("out/1/2.adoc", "= Two\n\nA:b2"),
        ("out/1.adoc", "= Root\n\nA:b1")], ["out/1", "out"]⟩,
      [Event.ensure "out", Event.fetch "w/1?expand=body.storage",
       Event.write "out/1.adoc" "= Root\n\nA:b1",
       Event.listChildren "w/1/child/page",
       Event.ensure "out/1", Event.fetch "w/2?expand=body.storage",
       Event.write "out/1/2.adoc" "= Two\n\nA:b2",
       Event.listChildren "w/2/child/page",
       Event.ensure "out/1", Event.fetch "w/4?expand=body.storage",
       Event.write "out/1/4.adoc" "= Four\n\nA:b4",
       Event.listChildren "w/4/child/page"]⟩ rfl

/-- C4: any exception inside the per-page routine aborts the whole process
with exit status 1: a conversion failure or a write failure yields
`.error 1`; a failing recursive child call makes the parent's loop stop at
once and itself report `.error 1`; and an erroring `process_page` aborts the
top-level page loop with the same exit code. -/
theorem c4_exception_aborts (rm : Remote) (base : String) (fuel : Nat)
    (cfg : Config) (pid : Nat) (fs : FS) (t : List Event) (fs1 : FS)
    (hcf : create_folder fs cfg.output_folder = some fs1)
    (hs : (rm.page pid).status = 200) :
    (rm.convert (rm.page pid).body = none →
      process_page rm base (fuel + 1) cfg pid ⟨fs, t⟩ = .error 1) ∧
    (∀ adoc, rm.convert (rm.page pid).body = some adoc →
      writeFile fs1
        (adocFilename cfg.output_folder
          (basisOf cfg.title_as_name (rm.page pid).title pid))
        (adocContent (rm.page pid).title adoc) = none →
      process_page rm base (fuel + 1) cfg pid ⟨fs, t⟩ = .error 1) ∧
    (∀ (recurse : Config → Nat → St → Except Nat St) (cfg' : Config)
      (title' : String) (pid' : Nat) (child : ChildEntry)
      (rest : List ChildEntry) (st : St) (c : Nat), child.type = "page" →
      recurse
        { cfg' with output_folder :=
            cfg'.output_folder ++ "/" ++
              basisOf cfg'.title_as_name title' pid' }
        child.id st = .error c →
      children_loop recurse cfg' title' pid' (child :: rest) st = .error 1) ∧
    (∀ (fuel' : Nat) (cfg' : Config) (p : Nat) (rest : List Nat) (st : St)
      (c : Nat), process_page rm base fuel' cfg' p st = .error c →
      run_pages rm base fuel' cfg' (p :: rest) st = .error c) := by
  refine ⟨?_, ?_, ?_, ?_⟩
  · intro hc
    rw [process_page_succ, body_conv_err _ rm base cfg pid ⟨fs, t⟩ fs1 hcf hs hc]
  · intro adoc hc hw
    rw [process_page_succ,
      body_write_err _ rm base cfg pid ⟨fs, t⟩ fs1 adoc hcf hs hc hw]
  · intro recurse cfg' title' pid' child rest st c hty h1
    exact children_loop_cons_page_err recurse cfg' title' pid' child rest st c hty h1
  · intro fuel' cfg' p rest st c h
    simp only [run_pages, h]

/-- C4 witness: the child of page 1 in `rmB` has a body the converter
rejects; the child invocation exits 1, and the whole top-level run over
page 1 exits 1. -/
theorem c4_witness :
    process_page rmB "w" 1 ⟨"u", "p", "w", "out/1", true, false⟩ 2
      ⟨⟨[], ["out", "out/1"]⟩, []⟩ = .error 1 ∧
    run_pages rmB "w" 2 cfgR [1] ⟨fs0, []⟩ = .error 1 :=
  ⟨(c4_exception_aborts rmB "w" 0 ⟨"u", "p", "w", "out/1", true, false⟩ 2
      ⟨[], ["out", "out/1"]⟩ [] ⟨[], ["out", "out/1"]⟩ (by decide) rfl).1 rfl,
   (c4_exception_aborts rmB "w" 2 cfgR 1 fs0 [] ⟨[], ["out"]⟩ (by decide)
      rfl).2.2.2 2 cfgR 1 [] ⟨fs0, []⟩ 1 rfl⟩

/-- C8: running the exporter again with the same configuration and the same
remote responses over the result of a first successful run succeeds and
produces, path for path, identical file contents; and each write opens the
target in overwrite mode — the new content replaces whatever was at the
path, it is not appended to it. -/
theorem c8_idempotent_rerun (rm : Remote) (base : String) (fuel : Nat)
    (cfg : Config) (pid : Nat) (fs : FS) (t : List Event) (fs' : FS)
    (t' t0 : List Event)
    (h : process_page rm base fuel cfg pid ⟨fs, t⟩ = .ok ⟨fs', t'⟩) :
    (∃ fs'' t'', process_page rm base fuel cfg pid ⟨fs', t0⟩ = .ok ⟨fs'', t''⟩ ∧
      ∀ p, lookupFile fs''.files p = lookupFile fs'.files p) ∧
    (∀ (g : FS) (q c1 : String),
      lookupFile (setFile g q c1).files q = some c1) := by
  constructor
  · obtain ⟨es, ht, hfs, hsub, hchk, hrep⟩ :=
      process_page_good rm base fuel cfg pid fs t fs' t' h
    obtain ⟨hre, hdir⟩ := hrep fs' t0 (fun x hx => hx)
    refine ⟨applyEvents fs' es, t0 ++ es, hre, ?_⟩
    intro p
    rw [lookupFile_applyEvents, hfs, lookupFile_applyEvents]
    cases hlw : lastWrite es p with
    | some c => rfl
    | none => rfl
  · intro g q c1
    rw [lookupFile_setFile, if_pos rfl]

/-- C8 witness: the full recursive export of page 1 run twice from the empty
filesystem; the second run reproduces the first run's files. -/
theorem c8_witness :
    (∃ fs'' t'', process_page rmA "w" 3 cfgR 1
        ⟨⟨[("out/1/4.adoc", "= Four\n\nA:b4"),
           ("out/1/2.adoc", "= Two\n\nA:b2"),
           ("out/1.adoc", "= Root\n\nA:b1")], ["out/1", "out"]⟩, []⟩ =
        .ok ⟨fs'', t''⟩ ∧
      ∀ p, lookupFile fs''.files p =
        lookupFile [("out/1/4.adoc", "= Four\n\nA:b4"),
          ("out/1/2.adoc", "= Two\n\nA:b2"),
          ("out/1.adoc", "= Root\n\nA:b1")] p) ∧
    (∀ (g : FS) (q c1 : String),
      lookupFile (setFile g q c1).files q = some c1) :=
  c8_idempotent_rerun rmA "w" 3 cfgR 1 fs0 []
    ⟨[("out/1/4.adoc", "= Four\n\nA:b4"), ("out/1/2.adoc", "= Two\n\nA:b2"),
      ("out/1.adoc", "= Root\n\nA:b1")], ["out/1", "out"]⟩
    [Event.ensure "out", Event.fetch "w/1?expand=body.storage",
     Event.write "out/1.adoc" "= Root\n\nA:b1",
     Event.listChildren "w/1/child/page",
     Event.ensure "out/1", Event.fetch "w/2?expand=body.storage",
     Event.write "out/1/2.adoc" "= Two\n\nA:b2",
     Event.listChildren "w/2/child/page",
     Event.ensure "out/1", Event.fetch "w/4?expand=body.storage",
     Event.write "out/1/4.adoc" "= Four\n\nA:b4",
     Event.listChildren "w/4/child/page"] [] rfl
